import Mathlib

/-!
A shallow embedding of the SafeTradeLab dataCollector core
(src/database/models.py, src/collectors/historical_collector.py,
src/collectors/realtime_collector.py) in Lean 4, together with proofs of the
spec claims about it.

Conventions of the embedding:
* All timestamps are integers in milliseconds.  Binance klines carry
  millisecond epoch timestamps directly; Python `datetime` values are
  identified with their millisecond epoch value (the code only compares,
  subtracts and offsets them, all of which commute with this identification).
* The Turkey display offset `timedelta(hours=3)` is `10800000` ms, one
  5-minute candle interval is `300000` ms, the one-hour force skip is
  `3600000` ms, one day is `86400000` ms.
* Decimal values coming from the exchange (price/volume strings, stored in
  NUMERIC(20,8) columns) are modelled as rationals.
* The SQLAlchemy session is modelled explicitly: queries see committed rows
  (plus in-session modifications of fetched rows, via the identity map) but
  not pending `session.add` objects, because the session factory is created
  with `autoflush=False` (src/database/connection.py).  `commit` enforces the
  composite uniqueness constraint on (timestamp_turkey, symbol, timeframe)
  (src/database/models.py, `uix_timestamp_symbol_timeframe`).
* Fallible code returns `Except`; a Python `try/except` handler is a `match`
  on that result.
-/

deriving instance DecidableEq for Except

/-- Error kind raised by the storage layer (connection failure vs the
uniqueness-constraint failure of `uix_timestamp_symbol_timeframe`). -/
inductive StorageErr where
  | connectionFailure
  | constraintFailure
deriving DecidableEq, Repr

/-- Error raised by the external Binance fetch capability
(`client.get_historical_klines`). -/
inductive ApiErr where
  | apiError
deriving DecidableEq, Repr

/-- A Python runtime error.  `nameError` is raised when an unbound name is
evaluated (this happens in `fill_missing_candles_before_start`, which reads
the never-assigned variable `now` at realtime_collector.py lines 282 and
285-286). -/
inductive PyErr where
  | nameError
deriving DecidableEq, Repr

/-- One Binance REST kline, as returned by `get_historical_klines`:
`[0]` open time (ms), `[1]` open, `[2]` high, `[3]` low, `[4]` close,
`[5]` volume, `[6]` close time (ms).  The decimal string fields are modelled
by their exact rational values. -/
structure Kline where
  openTime : Int
  o : ℚ
  h : ℚ
  l : ℚ
  c : ℚ
  v : ℚ
  closeTime : Int
deriving DecidableEq, Repr

/-- A row of the `ohlcv_data` table (src/database/models.py, class
`OHLCVData`).  The surrogate `id` and the server-side `created_at` audit
column are omitted: no claim mentions them and they carry no information
written by the collectors.  The column `open` is named `open_` because
`open` is a Lean keyword. -/
structure OHLCVRow where
  timestamp_utc : Int
  timestamp_turkey : Int
  symbol : String
  timeframe : String
  open_ : ℚ
  high : ℚ
  low : ℚ
  close : ℚ
  volume : ℚ
deriving DecidableEq, Repr

/-- The fixed `timedelta(hours=3)` Turkey display offset, in ms. -/
def turkeyOffsetMs : Int := 10800000

/-- One 5-minute candle interval (`timedelta(minutes=5)`), in ms. -/
def intervalMs : Int := 300000

/-- The fixed one-hour force skip (`timedelta(hours=1)`), in ms. -/
def hourMs : Int := 3600000

/-- One day (`timedelta(days=1)`), in ms. -/
def dayMs : Int := 86400000

/-- `OHLCVData.from_binance_kline` (src/database/models.py lines 66-91):
native UTC timestamp from `kline[0]`, Turkey timestamp by adding 3 hours,
and the decimal price/volume fields `kline[1]`..`kline[5]` passed through
unconverted. -/
def from_binance_kline (k : Kline) (symbol timeframe : String) : OHLCVRow :=
  { timestamp_utc := k.openTime
    timestamp_turkey := k.openTime + turkeyOffsetMs
    symbol := symbol
    timeframe := timeframe
    open_ := k.o
    high := k.h
    low := k.l
    close := k.c
    volume := k.v }

/-- The database table contents: a list of rows.  The uniqueness constraint
is enforced at commit time (`commit_adds`), as in the source, where the
store - not application logic - resolves duplicate keys. -/
abbrev Store := List OHLCVRow

/-- The composite key of the uniqueness constraint
`uix_timestamp_symbol_timeframe`: (timestamp_turkey, symbol, timeframe). -/
def row_key (r : OHLCVRow) : Int × String × String :=
  (r.timestamp_turkey, r.symbol, r.timeframe)

/-- The key under which a fetched kline is stored for a symbol/timeframe. -/
def kline_key (k : Kline) (symbol timeframe : String) : Int × String × String :=
  (k.openTime + turkeyOffsetMs, symbol, timeframe)

/-- The existence query
`session.query(OHLCVData).filter(and_(timestamp_turkey == .., symbol == ..,
timeframe == ..)).first()` used by every save path. -/
def find_row (s : Store) (key : Int × String × String) : Option OHLCVRow :=
  s.find? (fun r => decide (row_key r = key))

/-- The update branch of the upsert (e.g. historical_collector.py lines
155-163): assigns `timestamp_utc` and the five OHLCV fields of the incoming
record onto the existing row; the key columns are untouched. -/
def apply_update (r new : OHLCVRow) : OHLCVRow :=
  { r with
    timestamp_utc := new.timestamp_utc
    open_ := new.open_
    high := new.high
    low := new.low
    close := new.close
    volume := new.volume }

/-- Apply the update branch to the (unique) row holding `key`. -/
def update_row (s : Store) (key : Int × String × String) (new : OHLCVRow) : Store :=
  s.map (fun r => if row_key r = key then apply_update r new else r)

/-- `session.commit()` for a session holding the already-updated view `cur`
of the table plus the pending `session.add` objects `adds`: succeeds iff the
new rows violate the uniqueness constraint neither against the table nor
among themselves, appending them; otherwise the commit raises and the
transaction rolls back. -/
def commit_adds (cur : Store) (adds : List OHLCVRow) : Except StorageErr Store :=
  if (adds.map row_key).Nodup ∧ ∀ a ∈ adds, find_row cur (row_key a) = none then
    .ok (cur ++ adds)
  else
    .error .constraintFailure

/-- One iteration of the kline loop of
`HistoricalDataCollector.save_to_database` (historical_collector.py lines
128-167).  State: (saved_count, session view of the table, pending adds).
A kline whose close time `kline[6]` is strictly after now is skipped
(the closed-candle filter, lines 131-137); otherwise the record is built by
`from_binance_kline` and either updates the existing row for its key or is
added as a new pending row.  The query sees committed rows and in-session
updates but not pending adds (`autoflush=False`).  The log-only counters
`skipped_count`/`open_candle_count` are not modelled. -/
def save_step (now : Int) (symbol timeframe : String)
    (acc : Nat × Store × List OHLCVRow) (k : Kline) : Nat × Store × List OHLCVRow :=
  if now < k.closeTime then acc
  else
    let ohlcv := from_binance_kline k symbol timeframe
    match find_row acc.2.1 (row_key ohlcv) with
    | some _ => (acc.1, update_row acc.2.1 (row_key ohlcv) ohlcv, acc.2.2)
    | none => (acc.1 + 1, acc.2.1, acc.2.2 ++ [ohlcv])

/-- `HistoricalDataCollector.save_to_database` (historical_collector.py lines
108-181): loop over the page, then a single `session.commit()`; a commit
error is rolled back, logged and re-raised (lines 170-179), so it propagates
to the caller.  Returns `saved_count`, the number of newly inserted rows. -/
def save_to_database (now : Int) (symbol timeframe : String)
    (klines : List Kline) (s : Store) : Except StorageErr (Nat × Store) :=
  let r := klines.foldl (save_step now symbol timeframe) (0, s, [])
  match commit_adds r.2.1 r.2.2 with
  | .ok s' => .ok (r.1, s')
  | .error e => .error e

/-- Fuel-driven binary logarithm on naturals (structural recursion so that
concrete values reduce in the kernel); `log2Fuel n n` is the floor of the
base-2 logarithm of a positive `n`. -/
def log2Fuel : Nat → Nat → Nat
  | 0, _ => 0
  | fuel + 1, n => if 2 ≤ n then log2Fuel fuel (n / 2) + 1 else 0

/-- The power `2 ^ e` as a rational, for an integer exponent `e`, written
with `Rat.divInt` so that concrete values reduce in the kernel. -/
def qpow2 (e : Int) : ℚ :=
  if 0 ≤ e then Rat.divInt ((2 : Int) ^ e.toNat) 1
  else Rat.divInt 1 ((2 : Int) ^ (-e).toNat)

/-- Floor of the base-2 logarithm of a positive rational: first estimate it
from the logarithms of numerator and denominator, then correct by one. -/
def ratFloorLog2 (q : ℚ) : Int :=
  let e0 : Int := (log2Fuel q.num.natAbs q.num.natAbs : Int) - (log2Fuel q.den q.den : Int)
  if q < qpow2 e0 then e0 - 1
  else if qpow2 (e0 + 1) ≤ q then e0 + 1
  else e0

/-- Floor of a rational, written on the normalised numerator/denominator so
that concrete values reduce in the kernel. -/
def ratFloor (x : ℚ) : Int :=
  Int.fdiv x.num (x.den : Int)

/-- Round a rational to the nearest integer, ties to even. -/
def roundHalfEven (x : ℚ) : Int :=
  let fl := ratFloor x
  let fr := x - (fl : ℚ)
  if fr < 1 / 2 then fl
  else if 1 / 2 < fr then fl + 1
  else if fl % 2 = 0 then fl else fl + 1

/-- The value of Python's `float(...)` applied to an exact decimal value `q`:
the nearest IEEE-754 binary64 value (round to nearest, ties to even), as an
exact rational.  The model covers the normal range (no overflow or subnormal
handling), which contains every price/volume this system handles.  Used by
the realtime save paths, which convert the exchange's decimal strings with
`float(kline[..])` before storing them. -/
def pyFloat (q : ℚ) : ℚ :=
  if q = 0 then 0
  else
    let a := if q < 0 then -q else q
    let e := ratFloorLog2 a
    let m := roundHalfEven (a * qpow2 (52 - e))
    let mag := (m : ℚ) * qpow2 (e - 52)
    if q < 0 then -mag else mag

/-- Python's `int(...)` applied to a real number: truncation toward zero.
On a normalised rational (positive denominator) this is exactly the
toward-zero division of numerator by denominator. -/
def pyInt (q : ℚ) : Int :=
  Int.tdiv q.num (q.den : Int)

/-- The kline payload `k` of a Binance WebSocket kline event:
`t` open time (ms), `o/h/l/c/v` decimal strings (modelled by their exact
rational values), `x` the is-closed flag, `s` the symbol. -/
structure StreamKline where
  t : Int
  o : ℚ
  h : ℚ
  l : ℚ
  c : ℚ
  v : ℚ
  x : Bool
  s : String
deriving DecidableEq, Repr

/-- A decoded WebSocket kline message (`{e: "kline", k: {...}}`). -/
structure StreamMsg where
  k : StreamKline
deriving DecidableEq, Repr

/-- `RealtimeDataCollector.save_kline_to_database` (realtime_collector.py
lines 47-121): returns False without storing when the closed-flag `k['x']`
is false; otherwise upserts the candle under key
(open time + 3h, symbol, interval), converting the price/volume strings with
`float(...)` (modelled by `pyFloat`).  The single-row commit cannot violate
the uniqueness constraint (the insert branch runs only when the key is
absent), so the commit is modelled as succeeding; any storage exception
would be caught by the enclosing handler and reported as False with the
store unchanged. -/
def save_kline_to_database (symbol timeframe : String) (msg : StreamMsg)
    (s : Store) : Bool × Store :=
  let kline := msg.k
  if !kline.x then (false, s)
  else
    let utc_time := kline.t
    let turkey_time := utc_time + turkeyOffsetMs
    let key : Int × String × String := (turkey_time, symbol, timeframe)
    let newRow : OHLCVRow :=
      { timestamp_utc := utc_time
        timestamp_turkey := turkey_time
        symbol := symbol
        timeframe := timeframe
        open_ := pyFloat kline.o
        high := pyFloat kline.h
        low := pyFloat kline.l
        close := pyFloat kline.c
        volume := pyFloat kline.v }
    match find_row s key with
    | some _ => (true, update_row s key newRow)
    | none => (true, s ++ [newRow])

/-- `HistoricalDataCollector.get_last_record_time` (historical_collector.py
lines 37-60): runs `MAX(timestamp_turkey)` for the symbol/timeframe inside a
`try`; the `except Exception` handler catches every error, logs it and
returns `None`.  The argument is the raw outcome of the query against the
storage backend; the returned value is what the caller observes. -/
def get_last_record_time (q : Except StorageErr (Option Int)) : Option Int :=
  match q with
  | .ok v => v
  | .error _ => none

/-- The `MAX(timestamp_turkey) WHERE symbol = .. AND timeframe = ..` query
itself, on a concrete store. -/
def last_turkey (s : Store) (symbol timeframe : String) : Option Int :=
  (s.filterMap (fun r =>
    if r.symbol = symbol ∧ r.timeframe = timeframe then some r.timestamp_turkey
    else none)).max?

/-- The gap estimate of `HistoricalDataCollector.backfill_data`
(historical_collector.py lines 221-230): elapsed seconds since the last
stored candle (converted from Turkey time to UTC) divided by 300, then,
because `current_time_utc.minute % 5 < 5` always holds, reduced by one for
the still-open candle and clamped at zero.  Python computes this with binary
floats; the exact rational value is used here (the claims compare it only
against integers far from any rounding boundary). -/
def backfill_estimate (lastTurkey now : Int) : ℚ :=
  let last_record_utc := lastTurkey - turkeyOffsetMs
  let estimated : ℚ := ((now - last_record_utc : Int) : ℚ) / 300000
  let minutes_since_candle_start := ((now.ediv 60000).emod 60).emod 5
  if minutes_since_candle_start < 5 then max 0 (estimated - 1) else estimated


/-- The fetch start of `HistoricalDataCollector.backfill_data` when the
database is non-empty (historical_collector.py lines 209-219): candidate
start = last stored boundary (in UTC) + one interval, clamped to
`now - days` when the last record is older than the lookback ceiling. -/
def backfill_start (lastTurkey now days : Int) : Int :=
  let last_record_utc := lastTurkey - turkeyOffsetMs
  let max_start_time := now - days * dayMs
  if last_record_utc < max_start_time then max_start_time
  else last_record_utc + intervalMs

/-- The range that `backfill_data` hands to `fetch_range`, or `none` when no
fetch is performed (historical_collector.py lines 201-243): empty database
fetches the full `[now - days, now)` window; otherwise the fetch of
`[backfill_start, now)` happens only when the gap estimate is at least one
whole closed candle. -/
def backfill_window (lastTurkeyOpt : Option Int) (now days : Int) :
    Option (Int × Int) :=
  match lastTurkeyOpt with
  | none => some (now - days * dayMs, now)
  | some lastTurkey =>
      if backfill_estimate lastTurkey now < 1 then none
      else some (backfill_start lastTurkey now days, now)

/-- The cursor advancement of `HistoricalDataCollector.fetch_range`
(historical_collector.py lines 291-300): next cursor = open time of the last
kline of the page + one interval; if that does not strictly advance past the
current cursor, force-skip one hour instead. -/
def advance_cursor (current lastKlineTime : Int) : Int :=
  let next_start := lastKlineTime + intervalMs
  if next_start ≤ current then current + hourMs else next_start

/-- The `while` loop of `HistoricalDataCollector.fetch_range`
(historical_collector.py lines 267-309), with the remaining iteration budget
(`max_iterations - iteration`) as fuel.  Arguments beyond the externals:
fuel, cursor, accumulated `total_saved`, store.  Returns
(total_saved, store, number of iterations run).  Branches:
* page fetch raises: log, force-advance one hour, break if that reaches
  `end_time`, else continue (lines 305-309) - the error is caught, never
  re-raised;
* empty page: skip one hour forward if more than 300 seconds remain,
  else break (lines 278-285);
* data page: save it (a save error is caught by the same handler as a fetch
  error), then advance the cursor via `advance_cursor`. -/
def fetch_loop (oracle : Int → Except ApiErr (List Kline))
    (symbol timeframe : String) (now end_time : Int) :
    Nat → Int → Nat → Store → Nat × Store × Nat
  | 0, _, total_saved, s => (total_saved, s, 0)
  | fuel + 1, current_start, total_saved, s =>
    if current_start < end_time then
      match oracle current_start with
      | .error _ =>
          let c := current_start + hourMs
          if end_time ≤ c then (total_saved, s, 1)
          else
            let r := fetch_loop oracle symbol timeframe now end_time fuel c total_saved s
            (r.1, r.2.1, r.2.2 + 1)
      | .ok [] =>
          if 300000 < end_time - current_start then
            let r := fetch_loop oracle symbol timeframe now end_time fuel
              (current_start + hourMs) total_saved s
            (r.1, r.2.1, r.2.2 + 1)
          else (total_saved, s, 1)
      | .ok (k :: ks) =>
          match save_to_database now symbol timeframe (k :: ks) s with
          | .error _ =>
              let c := current_start + hourMs
              if end_time ≤ c then (total_saved, s, 1)
              else
                let r := fetch_loop oracle symbol timeframe now end_time fuel c total_saved s
                (r.1, r.2.1, r.2.2 + 1)
          | .ok (saved, s') =>
              let last_kline_time := (List.getLast (k :: ks) (List.cons_ne_nil k ks)).openTime
              let c := advance_cursor current_start last_kline_time
              let r := fetch_loop oracle symbol timeframe now end_time fuel c
                (total_saved + saved) s'
              (r.1, r.2.1, r.2.2 + 1)
    else (total_saved, s, 0)

/-- `HistoricalDataCollector.fetch_range` (historical_collector.py lines
247-312): the page loop with `max_iterations = 500`.  The Python function
has no uncaught raise path - the single `except Exception` handler absorbs
both fetch and save errors - so it always returns normally; the model's
codomain is accordingly total.  The external fetch capability is the
`oracle`, a function of the cursor (the page's requested start). -/
def fetch_range (oracle : Int → Except ApiErr (List Kline))
    (symbol timeframe : String) (now start_time end_time : Int) (s : Store) :
    Nat × Store × Nat :=
  fetch_loop oracle symbol timeframe now end_time 500 start_time 0 s

/-- `HistoricalDataCollector.backfill_data` (historical_collector.py lines
183-245): queries the last stored boundary through `get_last_record_time`
(whose own handler reduces a storage error to `None`), decides the fetch
window per `backfill_window`, and delegates to `fetch_range`.  Returns
(total_saved, store). -/
def backfill_data (lastQ : Except StorageErr (Option Int))
    (symbol timeframe : String) (now days : Int)
    (oracle : Int → Except ApiErr (List Kline)) (s : Store) : Nat × Store :=
  match backfill_window (get_last_record_time lastQ) now days with
  | none => (0, s)
  | some (a, b) =>
      let r := fetch_range oracle symbol timeframe now a b s
      (r.1, r.2.1)

/-- The body of `RealtimeDataCollector.fill_missing_candles_before_start`
(realtime_collector.py lines 237-336) up to its first effect on the store.
With no previous record it returns doing nothing (lines 248-250).  Otherwise
it computes `missing_candles = int(gap seconds / 300)` (line 266), always
subtracts the still-open candle because `now_utc.minute % 5 < 5` is
identically true (lines 269-272), and returns when no whole candle is
missing (lines 277-279).  When at least one candle is missing, the next
statement executed is
`logger.info(f"Filling from .. to now")` (line 282) followed by
`end_ms = int(now.timestamp() * 1000)` (line 286), and the name `now` is
bound nowhere in the function or module - only `now_utc` is - so a
`NameError` is raised before any fetch or insert happens.  The subsequent
fetch-and-insert code (lines 288-336) is unreachable; its save loop is
modelled separately as `fill_save_klines`. -/
def fill_missing_body (s : Store) (symbol timeframe : String) (now_utc : Int) :
    Except PyErr (Store × Nat) :=
  match last_turkey s symbol timeframe with
  | none => .ok (s, 0)
  | some last_record =>
      let last_record_utc := last_record - turkeyOffsetMs
      let time_diff := now_utc - last_record_utc
      let missing_candles := pyInt ((time_diff : ℚ) / 300000)
      let minutes_since_candle_start := ((now_utc.ediv 60000).emod 60).emod 5
      let missing_candles :=
        if minutes_since_candle_start < 5 then max 0 (missing_candles - 1)
        else missing_candles
      if missing_candles < 1 then .ok (s, 0)
      else .error .nameError

/-- `RealtimeDataCollector.fill_missing_candles_before_start`
(realtime_collector.py lines 232-339): runs `fill_missing_body` inside the
function-wide `try`; the `except Exception` handler (lines 338-339) catches
the `NameError`, logs it and returns, leaving the store as it was. -/
def fill_missing_candles_before_start (s : Store) (symbol timeframe : String)
    (now_utc : Int) : Store :=
  match fill_missing_body s symbol timeframe now_utc with
  | .ok (s', _) => s'
  | .error _ => s

/-- The row built inside the gap-fill save loop (realtime_collector.py lines
320-330): timestamps from `kline[0]` (+3h for Turkey), price/volume strings
converted with `float(...)`. -/
def fill_row (k : Kline) (symbol timeframe : String) : OHLCVRow :=
  { timestamp_utc := k.openTime
    timestamp_turkey := k.openTime + turkeyOffsetMs
    symbol := symbol
    timeframe := timeframe
    open_ := pyFloat k.o
    high := pyFloat k.h
    low := pyFloat k.l
    close := pyFloat k.c
    volume := pyFloat k.v }

/-- The save loop of `fill_missing_candles_before_start`
(realtime_collector.py lines 300-336): for each kline, insert it only when
no row for its key exists; an existing row is left completely untouched -
there is no update branch, unlike `save_to_database` and
`save_kline_to_database`.  The existence check sees committed rows only
(`autoflush=False`), and a single commit ends the session.  (In the source
this loop is unreachable because of the `NameError`, see
`fill_missing_body`; it is modelled from the lines as written.) -/
def fill_pending (symbol timeframe : String) (klines : List Kline)
    (s : Store) : Nat × List OHLCVRow :=
  klines.foldl
    (fun (acc : Nat × List OHLCVRow) k =>
      let turkey_time := k.openTime + turkeyOffsetMs
      if (find_row s (turkey_time, symbol, timeframe)).isSome then acc
      else (acc.1 + 1, acc.2 ++ [fill_row k symbol timeframe]))
    (0, [])

/-- The commit ending the gap-fill save loop session. -/
def fill_save_klines (symbol timeframe : String) (klines : List Kline)
    (s : Store) : Except StorageErr (Nat × Store) :=
  let r := fill_pending symbol timeframe klines s
  match commit_adds s r.2 with
  | .ok s' => .ok (r.1, s')
  | .error e => .error e

/-! ## Helper lemmas -/

theorem find_row_append_left {s : Store} {key : Int × String × String}
    {row : OHLCVRow} (ts : Store) (h : find_row s key = some row) :
    find_row (s ++ ts) key = some row := by
  unfold find_row at h ⊢
  rw [List.find?_append, h]
  rfl

theorem commit_adds_ok {cur : Store} {adds : List OHLCVRow} {s' : Store}
    (h : commit_adds cur adds = .ok s') : s' = cur ++ adds := by
  unfold commit_adds at h
  split at h
  · exact (Except.ok.injEq _ _).mp h |>.symm
  · exact absurd h (by simp)

theorem apply_update_self (r : OHLCVRow) : apply_update r r = r := rfl

theorem map_update_id (key : Int × String × String) (new : OHLCVRow) :
    ∀ (s : Store), (∀ a ∈ s, row_key a ≠ key) →
      s.map (fun r => if row_key r = key then apply_update r new else r) = s := by
  intro s
  induction s with
  | nil => intro _; rfl
  | cons a as ih =>
    intro hall
    rw [List.map_cons, if_neg (hall a (by simp))]
    rw [ih (fun b hb => hall b (by simp [hb]))]

theorem update_row_of_none {s : Store} {key : Int × String × String}
    (new : OHLCVRow) (h : find_row s key = none) :
    update_row s key new = s := by
  unfold find_row at h
  have hall := List.find?_eq_none.mp h
  unfold update_row
  exact map_update_id key new s (fun a ha => by simpa using hall a ha)

theorem find_row_append_singleton {s : Store} {key : Int × String × String}
    {r : OHLCVRow} (hnone : find_row s key = none) (hkey : row_key r = key) :
    find_row (s ++ [r]) key = some r := by
  unfold find_row at hnone ⊢
  rw [List.find?_append, hnone]
  simp [List.find?, hkey]

/-- A kline-page fold over `save_step` ignores the klines whose close time is
after now: only the closed ones contribute. -/
theorem foldl_save_step_filter (now : Int) (symbol timeframe : String) :
    ∀ (klines : List Kline) (acc : Nat × Store × List OHLCVRow),
      klines.foldl (save_step now symbol timeframe) acc =
      (klines.filter (fun k => decide (k.closeTime ≤ now))).foldl
        (save_step now symbol timeframe) acc := by
  intro klines
  induction klines with
  | nil => intro acc; rfl
  | cons k ks ih =>
    intro acc
    rw [List.foldl_cons, List.filter_cons]
    by_cases hk : now < k.closeTime
    · have h1 : decide (k.closeTime ≤ now) = false :=
        decide_eq_false (not_le.mpr hk)
      rw [h1]
      have hstep : save_step now symbol timeframe acc k = acc := by
        unfold save_step
        rw [if_pos hk]
      rw [hstep]
      simpa using ih acc
    · have h1 : decide (k.closeTime ≤ now) = true :=
        decide_eq_true (not_lt.mp hk)
      rw [h1]
      simpa using ih (save_step now symbol timeframe acc k)

/-! ## Claim theorems -/

unseal Rat.mul Rat.inv Rat.add Rat.sub in
/-- C1: the claim says that for a symbol with stored candles and at least one
whole closed candle missing, `fill_missing_candles_before_start` fetches
`[last stored boundary + one interval, now)` and inserts the missing closed
candles so that no gap remains.  The code cannot do this: as soon as the
missing count reaches 1 it evaluates the unbound name `now`
(realtime_collector.py line 282), the resulting `NameError` is caught by the
function-wide handler, and the store is left untouched.  Here a store holding
one BTCUSDT 5m candle whose boundary is 23 minutes old (3 whole closed
candles missing) produces exactly that: the body stops with `NameError` and
the routine returns the store unchanged, fetching and inserting nothing. -/
theorem C1_gap_fill_name_error :
    fill_missing_body [⟨0, 10800000, "BTCUSDT", "5m", 1, 1, 1, 1, 1⟩]
      "BTCUSDT" "5m" 1380000 = .error .nameError ∧
    fill_missing_candles_before_start [⟨0, 10800000, "BTCUSDT", "5m", 1, 1, 1, 1, 1⟩]
      "BTCUSDT" "5m" 1380000 = [⟨0, 10800000, "BTCUSDT", "5m", 1, 1, 1, 1, 1⟩] := by
  constructor
  · decide
  · decide

/-- C6 counterexample: the claim says that when force-advancing after a page
error would not make progress before `endTime`, `fetch_range` aborts and
propagates the error to its caller.  It does not: with a fetch capability
that always raises and a 30-minute window (smaller than the one-hour skip),
`fetch_range` catches the error, breaks out of the loop and returns the
normal result - zero candles saved, store unchanged, one iteration - rather
than an error. -/
theorem C6_fetch_error_counterexample :
    fetch_range (fun _ => .error .apiError) "BTCUSDT" "5m" 0 0 1800000 [] =
      (0, [], 1) := by
  decide

/-- The fetch loop never runs more iterations than its remaining budget. -/
theorem fetch_loop_iters_le (oracle : Int → Except ApiErr (List Kline))
    (symbol timeframe : String) (now end_time : Int) :
    ∀ (fuel : Nat) (current : Int) (total : Nat) (s : Store),
      (fetch_loop oracle symbol timeframe now end_time fuel current total s).2.2 ≤ fuel := by
  intro fuel
  induction fuel with
  | zero =>
    intro current total s
    simp [fetch_loop]
  | succ n ih =>
    intro current total s
    unfold fetch_loop
    by_cases hlt : current < end_time
    · rw [if_pos hlt]
      cases hor : oracle current with
      | error e =>
        simp only
        by_cases hend : end_time ≤ current + hourMs
        · rw [if_pos hend]
          exact Nat.succ_le_succ (Nat.zero_le n)
        · rw [if_neg hend]
          have := ih (current + hourMs) total s
          simp only
          omega
      | ok klines =>
        cases klines with
        | nil =>
          simp only
          by_cases hrem : 300000 < end_time - current
          · rw [if_pos hrem]
            have := ih (current + hourMs) total s
            simp only
            omega
          · rw [if_neg hrem]
            exact Nat.succ_le_succ (Nat.zero_le n)
        | cons k ks =>
          simp only
          cases hsave : save_to_database now symbol timeframe (k :: ks) s with
          | error e =>
            simp only
            by_cases hend : end_time ≤ current + hourMs
            · rw [if_pos hend]
              exact Nat.succ_le_succ (Nat.zero_le n)
            · rw [if_neg hend]
              have := ih (current + hourMs) total s
              simp only
              omega
          | ok pr =>
            obtain ⟨saved, s'⟩ := pr
            simp only
            have := ih (advance_cursor current
              (List.getLast (k :: ks) (List.cons_ne_nil k ks)).openTime) (total + saved) s'
            omega
    · rw [if_neg hlt]
      exact Nat.zero_le _

/-- C5: on a non-advancing page - every candle of the (non-empty) page at or
before the current cursor - the next cursor strictly exceeds the previous
one (the one-hour force skip guarantees it), and every `fetch_range` run
performs at most the hard cap of 500 iterations. -/
theorem C5_forced_progress :
    (∀ (current : Int) (klines : List Kline) (h : klines ≠ []),
      (∀ k ∈ klines, k.openTime ≤ current) →
      current < advance_cursor current (klines.getLast h).openTime) ∧
    (∀ (oracle : Int → Except ApiErr (List Kline)) (symbol timeframe : String)
       (now start_time end_time : Int) (s : Store),
      (fetch_range oracle symbol timeframe now start_time end_time s).2.2 ≤ 500) := by
  constructor
  · intro current klines h hall
    unfold advance_cursor
    simp only [intervalMs, hourMs]
    split
    · omega
    · omega
  · intro oracle symbol timeframe now start_time end_time s
    exact fetch_loop_iters_le oracle symbol timeframe now end_time 500 start_time 0 s

/-- Witness for C5 at concrete inputs: a one-candle page whose open time
equals the cursor, and a concrete failing fetch run. -/
theorem C5_forced_progress_witness :
    (0 : Int) < advance_cursor 0
      (([⟨0, 1, 1, 1, 1, 1, 299999⟩] : List Kline).getLast (by decide)).openTime ∧
    (fetch_range (fun _ => .error .apiError) "BTCUSDT" "5m" 0 0 1800000 []).2.2 ≤ 500 := by
  constructor
  · exact C5_forced_progress.1 0 [⟨0, 1, 1, 1, 1, 1, 299999⟩] (by decide)
      (by intro k hk; rw [List.mem_singleton] at hk; rw [hk])
  · exact C5_forced_progress.2 (fun _ => .error .apiError) "BTCUSDT" "5m" 0 0 1800000 []

/-- C6 (amended): when fetching one page raises, `fetch_range` logs the
error, force-advances the cursor by the one-hour skip and keeps looping;
when that advancement reaches or passes `end_time` it stops - but it returns
the accumulated saved-count normally instead of propagating the error, which
its single `except` handler never re-raises. -/
theorem C6_fetch_error_amended :
    (∀ (oracle : Int → Except ApiErr (List Kline)) (symbol timeframe : String)
       (now end_time : Int) (fuel : Nat) (current : Int) (total : Nat)
       (s : Store) (e : ApiErr),
      oracle current = .error e → current < end_time →
      current + hourMs < end_time →
      fetch_loop oracle symbol timeframe now end_time (fuel + 1) current total s =
        ((fetch_loop oracle symbol timeframe now end_time fuel (current + hourMs) total s).1,
         (fetch_loop oracle symbol timeframe now end_time fuel (current + hourMs) total s).2.1,
         (fetch_loop oracle symbol timeframe now end_time fuel (current + hourMs) total s).2.2 + 1)) ∧
    (∀ (oracle : Int → Except ApiErr (List Kline)) (symbol timeframe : String)
       (now end_time : Int) (fuel : Nat) (current : Int) (total : Nat)
       (s : Store) (e : ApiErr),
      oracle current = .error e → current < end_time →
      end_time ≤ current + hourMs →
      fetch_loop oracle symbol timeframe now end_time (fuel + 1) current total s =
        (total, s, 1)) := by
  constructor
  · intro oracle symbol timeframe now end_time fuel current total s e hor hlt hprog
    conv_lhs => unfold fetch_loop
    rw [if_pos hlt, hor]
    simp only
    rw [if_neg (not_le.mpr hprog)]
  · intro oracle symbol timeframe now end_time fuel current total s e hor hlt hend
    conv_lhs => unfold fetch_loop
    rw [if_pos hlt, hor]
    simp only
    rw [if_pos hend]

/-- Witness for C6 (amended) at concrete inputs: an always-failing fetch
capability over a two-hour window (skip-and-continue case) and over a
30-minute window (stop case). -/
theorem C6_fetch_error_amended_witness :
    fetch_loop (fun _ => .error .apiError) "BTCUSDT" "5m" 0 7200000 (499 + 1) 0 0 [] =
      ((fetch_loop (fun _ => .error .apiError) "BTCUSDT" "5m" 0 7200000 499 (0 + hourMs) 0 []).1,
       (fetch_loop (fun _ => .error .apiError) "BTCUSDT" "5m" 0 7200000 499 (0 + hourMs) 0 []).2.1,
       (fetch_loop (fun _ => .error .apiError) "BTCUSDT" "5m" 0 7200000 499 (0 + hourMs) 0 []).2.2 + 1) ∧
    fetch_loop (fun _ => .error .apiError) "BTCUSDT" "5m" 0 1800000 (499 + 1) 0 0 [] = (0, [], 1) := by
  constructor
  · exact C6_fetch_error_amended.1 (fun _ => .error .apiError) "BTCUSDT" "5m" 0 7200000
      499 0 0 [] .apiError rfl (by decide) (by decide)
  · exact C6_fetch_error_amended.2 (fun _ => .error .apiError) "BTCUSDT" "5m" 0 1800000
      499 0 0 [] .apiError rfl (by decide) (by decide)

/-- C7 counterexample: the claim says a persistence error raised during the
latest-boundary query propagates to the caller and that a reconcile
invocation hitting a storage error aborts and reports failure.  Neither
happens: `get_last_record_time` catches the error and returns `None`, and
`backfill_data` then treats the database as empty and proceeds with the full
lookback fetch - here it fetches and inserts one candle and reports success
(1 candle saved) despite the connection failure of its first query. -/
theorem C7_error_swallowed_counterexample :
    get_last_record_time (.error .connectionFailure) = none ∧
    backfill_data (.error .connectionFailure) "BTCUSDT" "5m" 172800000 1
      (fun _ => .ok [⟨172500000, 1, 1, 1, 1, 1, 172799999⟩]) [] =
      (1, [⟨172500000, 183300000, "BTCUSDT", "5m", 1, 1, 1, 1, 1⟩]) := by
  constructor
  · rfl
  · decide

/-- C7 (amended): a persistence error during the latest-boundary query is
caught inside `get_last_record_time`, which returns `None`; `backfill_data`
consequently behaves exactly as on an empty database - it proceeds with the
full-lookback fetch instead of aborting. -/
theorem C7_error_swallowed_amended :
    (∀ e : StorageErr, get_last_record_time (.error e) = none) ∧
    (∀ (e : StorageErr) (symbol timeframe : String) (now days : Int)
       (oracle : Int → Except ApiErr (List Kline)) (s : Store),
      backfill_data (.error e) symbol timeframe now days oracle s =
        backfill_data (.ok none) symbol timeframe now days oracle s) := by
  constructor
  · intro e
    rfl
  · intro e symbol timeframe now days oracle s
    rfl

/-- C2: starting from a store with no row for the candle's key, saving the
same closed candle tuple twice through `save_to_database` inserts it once
(`saved_count` 1) and then updates it in place (`saved_count` 0), leaving
exactly one stored row for the key whose non-key fields carry the call's
values. -/
theorem C2_upsert_idempotent (now : Int) (symbol timeframe : String)
    (k : Kline) (s : Store) (hclosed : k.closeTime ≤ now)
    (habsent : find_row s (kline_key k symbol timeframe) = none) :
    save_to_database now symbol timeframe [k] s =
      .ok (1, s ++ [from_binance_kline k symbol timeframe]) ∧
    save_to_database now symbol timeframe [k]
        (s ++ [from_binance_kline k symbol timeframe]) =
      .ok (0, s ++ [from_binance_kline k symbol timeframe]) ∧
    (s ++ [from_binance_kline k symbol timeframe]).countP
        (fun x => decide (row_key x = kline_key k symbol timeframe)) = 1 ∧
    find_row (s ++ [from_binance_kline k symbol timeframe])
        (kline_key k symbol timeframe) =
      some (from_binance_kline k symbol timeframe) ∧
    (from_binance_kline k symbol timeframe).open_ = k.o ∧
    (from_binance_kline k symbol timeframe).high = k.h ∧
    (from_binance_kline k symbol timeframe).low = k.l ∧
    (from_binance_kline k symbol timeframe).close = k.c ∧
    (from_binance_kline k symbol timeframe).volume = k.v := by
  have hnotlt : ¬ now < k.closeTime := not_lt.mpr hclosed
  set r := from_binance_kline k symbol timeframe with hr
  have hkey : row_key r = kline_key k symbol timeframe := rfl
  have hall := List.find?_eq_none.mp habsent
  have hfold1 : [k].foldl (save_step now symbol timeframe) (0, s, []) =
      (1, s, [r]) := by
    simp [save_step, hnotlt, hkey, habsent, hr]
  have hcommit1 : commit_adds s [r] = .ok (s ++ [r]) := by
    unfold commit_adds
    rw [if_pos]
    constructor
    · simp
    · intro a ha
      rw [List.mem_singleton] at ha
      subst ha
      rw [hkey]
      exact habsent
  have hc1 : save_to_database now symbol timeframe [k] s = .ok (1, s ++ [r]) := by
    simp only [save_to_database, hfold1]
    rw [hcommit1]
  have hfind2 : find_row (s ++ [r]) (kline_key k symbol timeframe) = some r :=
    find_row_append_singleton habsent hkey
  have hupd : update_row (s ++ [r]) (kline_key k symbol timeframe) r = s ++ [r] := by
    unfold update_row
    rw [List.map_append]
    have h1 : s.map
        (fun x => if row_key x = kline_key k symbol timeframe then apply_update x r else x) = s :=
      map_update_id _ r s (fun a ha => by simpa using hall a ha)
    have h2 : [r].map
        (fun x => if row_key x = kline_key k symbol timeframe then apply_update x r else x) = [r] := by
      simp [hkey, apply_update_self]
    rw [h1, h2]
  have hfold2 : [k].foldl (save_step now symbol timeframe) (0, s ++ [r], []) =
      (0, s ++ [r], []) := by
    simp [save_step, hnotlt, hkey, hfind2, hupd, hr]
  have hcommit2 : commit_adds (s ++ [r]) [] = .ok (s ++ [r]) := by
    simp [commit_adds]
  have hc2 : save_to_database now symbol timeframe [k] (s ++ [r]) =
      .ok (0, s ++ [r]) := by
    simp only [save_to_database, hfold2]
    rw [hcommit2]
  have hcount : (s ++ [r]).countP
      (fun x => decide (row_key x = kline_key k symbol timeframe)) = 1 := by
    rw [List.countP_append]
    have h0 : s.countP
        (fun x => decide (row_key x = kline_key k symbol timeframe)) = 0 := by
      rw [List.countP_eq_zero]
      intro a ha
      exact hall a ha
    rw [h0]
    simp [List.countP_cons, hkey]
  exact ⟨hc1, hc2, hcount, hfind2, rfl, rfl, rfl, rfl, rfl⟩

/-- Witness for C2 at a concrete closed candle and the empty store. -/
theorem C2_upsert_idempotent_witness :
    save_to_database 300000 "BTCUSDT" "5m" [⟨0, 1, 2, 1, 2, 5, 299999⟩] [] =
      .ok (1, [] ++ [from_binance_kline ⟨0, 1, 2, 1, 2, 5, 299999⟩ "BTCUSDT" "5m"]) ∧
    save_to_database 300000 "BTCUSDT" "5m" [⟨0, 1, 2, 1, 2, 5, 299999⟩]
        ([] ++ [from_binance_kline ⟨0, 1, 2, 1, 2, 5, 299999⟩ "BTCUSDT" "5m"]) =
      .ok (0, [] ++ [from_binance_kline ⟨0, 1, 2, 1, 2, 5, 299999⟩ "BTCUSDT" "5m"]) :=
  ⟨(C2_upsert_idempotent 300000 "BTCUSDT" "5m" ⟨0, 1, 2, 1, 2, 5, 299999⟩ []
      (by decide) rfl).1,
   (C2_upsert_idempotent 300000 "BTCUSDT" "5m" ⟨0, 1, 2, 1, 2, 5, 299999⟩ []
      (by decide) rfl).2.1⟩

unseal Rat.mul Rat.inv Rat.add Rat.sub in
/-- C4 counterexample: with `lastStored = T` (stored Turkey boundary
`T + 3h`) and `now = T + 23 minutes`, at `T = 0`, the reconciler's adjusted
estimate is `23/5 - 1 = 18/5 = 3.6`, reported as `int(3.6) = 3` - not the 4
the claim states. -/
theorem C4_gap_estimate_counterexample :
    backfill_estimate 10800000 1380000 = 18 / 5 ∧
    pyInt (backfill_estimate 10800000 1380000) = 3 ∧
    ¬ pyInt (backfill_estimate 10800000 1380000) = 4 := by
  refine ⟨by decide, by decide, by decide⟩

unseal Rat.mul Rat.inv Rat.add Rat.sub in
/-- C4 (amended): given `lastStored = T` and `now = T + 23 minutes` with the
5-minute interval and any lookback window of at least 23 minutes, the
estimated missing closed-candle count is `3.6` (truncated to 3 when
reported: 23/5 = 4.6 minus 1 for the still-open candle), and reconcile
delegates a fetch over exactly `[T + 5 minutes, now)`. -/
theorem C4_gap_estimate_amended (T days : Int) (hdays : 1380000 ≤ days * dayMs) :
    backfill_estimate (T + turkeyOffsetMs) (T + 1380000) = 18 / 5 ∧
    pyInt (backfill_estimate (T + turkeyOffsetMs) (T + 1380000)) = 3 ∧
    backfill_window (some (T + turkeyOffsetMs)) (T + 1380000) days =
      some (T + intervalMs, T + 1380000) := by
  have hmin : (((T + 1380000).ediv 60000).emod 60).emod 5 < 5 :=
    Int.emod_lt_of_pos _ (by norm_num)
  have hest : backfill_estimate (T + turkeyOffsetMs) (T + 1380000) = 18 / 5 := by
    simp only [backfill_estimate]
    rw [if_pos hmin]
    have h1 : T + 1380000 - (T + turkeyOffsetMs - turkeyOffsetMs) = (1380000 : Int) := by
      simp only [turkeyOffsetMs]
      ring
    rw [h1]
    have h2 : ((1380000 : Int) : ℚ) / 300000 - 1 = 18 / 5 := by
      norm_num
    rw [h2]
    rw [max_eq_right (by norm_num : (0 : ℚ) ≤ 18 / 5)]
  refine ⟨hest, ?_, ?_⟩
  · rw [hest]
    decide
  · simp only [backfill_window]
    rw [hest]
    rw [if_neg (by norm_num : ¬ (18 / 5 : ℚ) < 1)]
    have hstart : backfill_start (T + turkeyOffsetMs) (T + 1380000) days =
        T + intervalMs := by
      simp only [backfill_start, turkeyOffsetMs, dayMs, intervalMs]
      simp only [dayMs] at hdays
      rw [if_neg (by omega)]
      omega
    rw [hstart]

unseal Rat.mul Rat.inv Rat.add Rat.sub in
/-- Witness for C4 (amended) at `T = 0`, `days = 180`. -/
theorem C4_gap_estimate_amended_witness :
    backfill_estimate (0 + turkeyOffsetMs) (0 + 1380000) = 18 / 5 ∧
    pyInt (backfill_estimate (0 + turkeyOffsetMs) (0 + 1380000)) = 3 ∧
    backfill_window (some (0 + turkeyOffsetMs)) (0 + 1380000) 180 =
      some (0 + intervalMs, 0 + 1380000) :=
  C4_gap_estimate_amended 0 180 (by decide)

/-- C8: whenever the stored last boundary (converted to UTC) is older than
`now - days`, the reconciler clamps the fetch start to exactly
`now - days`, and - provided the gap estimate reaches one whole candle, as
it always does on such an old boundary - delegates a fetch over exactly
`[now - days, now)`. -/
theorem C8_lookback_ceiling (lastTurkey now days : Int)
    (hold : lastTurkey - turkeyOffsetMs < now - days * dayMs) :
    backfill_start lastTurkey now days = now - days * dayMs ∧
    (1 ≤ backfill_estimate lastTurkey now →
      backfill_window (some lastTurkey) now days = some (now - days * dayMs, now)) := by
  have hstart : backfill_start lastTurkey now days = now - days * dayMs := by
    simp only [backfill_start]
    rw [if_pos hold]
  refine ⟨hstart, fun hest => ?_⟩
  simp only [backfill_window]
  rw [if_neg (not_lt.mpr hest), hstart]

unseal Rat.mul Rat.inv Rat.add Rat.sub in
/-- Witness for C8: `lastStored = now - 400 days` (in UTC; the stored Turkey
value carries the +3h offset) with `maxLookbackDays = 180` and `now = 0`:
the fetch start is clamped to `now - 180 days = -15552000000` ms. -/
theorem C8_lookback_ceiling_witness :
    backfill_start (-34549200000) 0 180 = 0 - 180 * dayMs ∧
    backfill_window (some (-34549200000)) 0 180 = some (0 - 180 * dayMs, 0) :=
  ⟨(C8_lookback_ceiling (-34549200000) 0 180 (by decide)).1,
   (C8_lookback_ceiling (-34549200000) 0 180 (by decide)).2 (by decide)⟩

/-- C10: the gap-fill save loop only ever inserts rows for absent keys -
every key already present keeps exactly its previous row, untouched - while
the backfill save path (`save_to_database`) and the live-stream save path
(`save_kline_to_database`) overwrite the existing row of a key with the
incoming values, shown here on concrete same-key upserts. -/
theorem C10_gap_fill_insert_only :
    (∀ (symbol timeframe : String) (klines : List Kline) (s : Store)
       (key : Int × String × String) (row : OHLCVRow) (n : Nat) (s' : Store),
      find_row s key = some row →
      fill_save_klines symbol timeframe klines s = .ok (n, s') →
      find_row s' key = some row) ∧
    save_to_database 300000 "BTCUSDT" "5m" [⟨0, 2, 3, 2, 3, 7, 299999⟩]
        [from_binance_kline ⟨0, 1, 2, 1, 2, 5, 299999⟩ "BTCUSDT" "5m"] =
      .ok (0, [from_binance_kline ⟨0, 2, 3, 2, 3, 7, 299999⟩ "BTCUSDT" "5m"]) ∧
    save_kline_to_database "BTCUSDT" "5m" ⟨⟨0, 2, 3, 2, 3, 7, true, "BTCUSDT"⟩⟩
        [fill_row ⟨0, 1, 2, 1, 2, 5, 299999⟩ "BTCUSDT" "5m"] =
      (true, [⟨0, 10800000, "BTCUSDT", "5m", pyFloat 2, pyFloat 3, pyFloat 2,
              pyFloat 3, pyFloat 7⟩]) := by
  refine ⟨?_, by decide, ?_⟩
  · intro symbol timeframe klines s key row n s' hfind hsave
    simp only [fill_save_klines] at hsave
    cases hc : commit_adds s (fill_pending symbol timeframe klines s).2 with
    | error e =>
      rw [hc] at hsave
      exact absurd hsave (by simp)
    | ok s2 =>
      rw [hc] at hsave
      simp only [Except.ok.injEq, Prod.mk.injEq] at hsave
      rw [← hsave.2, commit_adds_ok hc]
      exact find_row_append_left _ hfind
  · rfl

/-- Witness for C10 at a concrete store: a gap-fill page whose only kline
collides with the stored row leaves that row exactly as it was. -/
theorem C10_gap_fill_insert_only_witness :
    find_row [fill_row ⟨0, 1, 2, 1, 2, 5, 299999⟩ "BTCUSDT" "5m"]
      (10800000, "BTCUSDT", "5m") =
      some (fill_row ⟨0, 1, 2, 1, 2, 5, 299999⟩ "BTCUSDT" "5m") :=
  C10_gap_fill_insert_only.1 "BTCUSDT" "5m" [⟨0, 9, 9, 9, 9, 9, 299999⟩]
    [fill_row ⟨0, 1, 2, 1, 2, 5, 299999⟩ "BTCUSDT" "5m"]
    (10800000, "BTCUSDT", "5m")
    (fill_row ⟨0, 1, 2, 1, 2, 5, 299999⟩ "BTCUSDT" "5m") 0
    [fill_row ⟨0, 1, 2, 1, 2, 5, 299999⟩ "BTCUSDT" "5m"] rfl rfl

/-- C3: the Range Fetcher's save path behaves identically to itself applied
to only the closed candles of the page - a candle whose close time is
strictly after now is never stored (a one-candle open page changes nothing
and saves zero) - and the Live Stream Ingestor's save path stores nothing
for a message whose closed-flag is false. -/
theorem C3_closed_only :
    (∀ (now : Int) (symbol timeframe : String) (klines : List Kline) (s : Store),
      save_to_database now symbol timeframe klines s =
        save_to_database now symbol timeframe
          (klines.filter (fun k => decide (k.closeTime ≤ now))) s) ∧
    (∀ (now : Int) (symbol timeframe : String) (k : Kline) (s : Store),
      now < k.closeTime →
      save_to_database now symbol timeframe [k] s = .ok (0, s)) ∧
    (∀ (symbol timeframe : String) (msg : StreamMsg) (s : Store),
      msg.k.x = false →
      save_kline_to_database symbol timeframe msg s = (false, s)) := by
  refine ⟨?_, ?_, ?_⟩
  · intro now symbol timeframe klines s
    unfold save_to_database
    rw [foldl_save_step_filter]
  · intro now symbol timeframe k s hk
    have hstep : save_step now symbol timeframe (0, s, []) k = (0, s, []) := by
      unfold save_step
      rw [if_pos hk]
    simp only [save_to_database, List.foldl_cons, List.foldl_nil, hstep]
    simp [commit_adds]
  · intro symbol timeframe msg s hx
    simp [save_kline_to_database, hx]

/-- Witness for C3 at concrete inputs: an open candle (close time 299999,
now 100) is not saved by the Range Fetcher path, and a stream message with
closed-flag false is not saved by the ingestor path. -/
theorem C3_closed_only_witness :
    save_to_database 100 "BTCUSDT" "5m" [⟨0, 1, 2, 1, 2, 5, 299999⟩] [] =
      .ok (0, []) ∧
    save_kline_to_database "BTCUSDT" "5m" ⟨⟨0, 1, 2, 1, 2, 5, false, "BTCUSDT"⟩⟩ [] =
      (false, []) :=
  ⟨C3_closed_only.2.1 100 "BTCUSDT" "5m" ⟨0, 1, 2, 1, 2, 5, 299999⟩ [] (by decide),
   C3_closed_only.2.2 "BTCUSDT" "5m" ⟨⟨0, 1, 2, 1, 2, 5, false, "BTCUSDT"⟩⟩ [] rfl⟩

unseal Rat.mul Rat.inv Rat.add Rat.sub in
/-- C9: the claim says every candle persisted by the backfill or live-stream
path stores exactly the decimal values the exchange supplied, with no loss
of precision to binary floating point.  The backfill path honours this
(`from_binance_kline` passes the decimal strings through unconverted), but
the live-stream path converts each value with `float(...)`
(realtime_collector.py lines 87-103), and binary64 is not injective on the
exchange's 8-decimal domain: at `2^27 = 134217728` one ulp is `2^-25`, which
is about `2.98e-8`, so the supplied volume `134217728.00000001` lies below
half an ulp from `2^27` and `float(...)` collapses it to exactly
`134217728`.  The write below therefore stores `134217728` for a supplied
`134217728.00000001`, and is bit-identical to the write for a supplied
`134217728.00000000` - two distinct supplied decimals produce the same
application-level write, so no downstream serialization can make both
stored rows equal their supplied values.  This contradicts the spec's
stated intent (the slip is the `float(...)` conversion, absent from the
backfill path's own `from_binance_kline`). -/
theorem C9_float_precision_loss :
    save_kline_to_database "BTCUSDT" "5m"
        ⟨⟨0, 1, 1, 1, 1, 134217728 + 1 / 100000000, true, "BTCUSDT"⟩⟩ [] =
      (true, [⟨0, 10800000, "BTCUSDT", "5m", 1, 1, 1, 1, 134217728⟩]) ∧
    save_kline_to_database "BTCUSDT" "5m"
        ⟨⟨0, 1, 1, 1, 1, 134217728 + 1 / 100000000, true, "BTCUSDT"⟩⟩ [] =
      save_kline_to_database "BTCUSDT" "5m"
        ⟨⟨0, 1, 1, 1, 1, 134217728, true, "BTCUSDT"⟩⟩ [] ∧
    pyFloat (134217728 + 1 / 100000000) ≠ 134217728 + 1 / 100000000 ∧
    (134217728 + 1 / 100000000 : ℚ) ≠ 134217728 := by
  refine ⟨by decide, by decide, by decide, by decide⟩
